import Mathlib

/-!
Shallow embedding of the request orchestration engine of `safe-fetch`
(`src/safe-fetch.ts`): the retry loop, the cancellation-signal merge, the
interceptor pipeline, the per-status dispatch and the instance registry of
abort controllers.  Every definition below is translated from the TypeScript
source; line numbers in the doc comments refer to `src/safe-fetch.ts`.
-/

namespace SafeFetch

/-! ## Headers

JS header objects (`HeadersType`) are string-keyed records with string
values; keys are unique.  We model them as association lists.  A JS
truthiness test on a header value (`finalHeaders["Content-Type"]`) is false
exactly when the entry is absent or its value is the empty string. -/

/-- A JS header record: unique string keys mapped to string values. -/
abbrev Headers := List (String × String)

/-- Property lookup `h[k]` on a JS object: `some v` when the key is present. -/
def hLookup (h : Headers) (k : String) : Option String :=
  (h.find? (fun q => q.1 == k)).map Prod.snd

/-- JS truthiness of a looked-up header value: present and non-empty. -/
def truthy : Option String → Bool
  | none => false
  | some s => s != ""

/-- `delete h[k]` on a JS object. -/
def hDelete (h : Headers) (k : String) : Headers :=
  h.filter (fun q => q.1 != k)

/-- `h[k] = v` on a JS object (replaces any existing entry). -/
def hSet (h : Headers) (k v : String) : Headers :=
  h.filter (fun q => q.1 != k) ++ [(k, v)]

/-- `mergeHeaders` (lines 605-613): object spread `{...g, ...l}`, the
call-level record wins on key collision. -/
def mergeHeaders (g l : Headers) : Headers :=
  g.filter (fun q => (hLookup l q.1).isNone) ++ l

/-! ## Bodies and body encoding (lines 258-293)

A request body is either absent, one of the natively handled classes
(`FormData`, `Blob`, `ArrayBuffer`, `URLSearchParams`, `ReadableStream`),
a plain object/array (represented by its `JSON.stringify` image), or an
already-serialized string. -/

/-- Request body variants distinguished by the `instanceof` / `typeof`
checks of lines 262-281.  `jsObject j` is a plain object or array whose
`JSON.stringify` image is `j`. -/
inductive Body where
  | none
  | formData
  | blob
  | arrayBuffer
  | urlSearchParams
  | readableStream
  | jsObject (json : String)
  | str (s : String)
deriving DecidableEq, Repr

/-- Body-encoding step of `core` (lines 258-293).  Returns the body and the
header record that lines 320-326 hand to the transport:
* `FormData`: if the `Content-Type` value is truthy it is deleted
  (lines 272-275); the body is untouched;
* `Blob`/`ArrayBuffer`/`URLSearchParams`/`ReadableStream`: untouched
  (lines 276-277);
* any other truthy object (`jsObject`): if the `Content-Type` value is
  falsy or exactly `application/json`, the body is `JSON.stringify`-ed and,
  when the value was falsy, `Content-Type: application/json` is set
  (lines 279-292);
* everything else (no body, string body): passed through unchanged. -/
def encodeBody (body : Body) (finalHeaders : Headers) : Body × Headers :=
  match body with
  | .formData =>
      if truthy (hLookup finalHeaders "Content-Type") then
        (.formData, hDelete finalHeaders "Content-Type")
      else
        (.formData, finalHeaders)
  | .blob => (.blob, finalHeaders)
  | .arrayBuffer => (.arrayBuffer, finalHeaders)
  | .urlSearchParams => (.urlSearchParams, finalHeaders)
  | .readableStream => (.readableStream, finalHeaders)
  | .jsObject j =>
      if !truthy (hLookup finalHeaders "Content-Type")
          || hLookup finalHeaders "Content-Type" == some "application/json" then
        (.str j,
          if !truthy (hLookup finalHeaders "Content-Type") then
            hSet finalHeaders "Content-Type" "application/json"
          else finalHeaders)
      else
        (.jsObject j, finalHeaders)
  | .none => (.none, finalHeaders)
  | .str s => (.str s, finalHeaders)

/-! ## Responses, errors, transport outcomes -/

/-- A `Response` descriptor: the status code plus an identity tag so that
distinct response objects (original vs. hook substitute) are
distinguishable. -/
structure Resp where
  status : Nat
  tag : Nat
deriving DecidableEq, Repr

/-- `Response.ok`: status in the inclusive range 200-299. -/
def Resp.ok (r : Resp) : Bool :=
  decide (200 ≤ r.status ∧ r.status ≤ 299)

/-- Classified errors of the orchestrator (lines 343 and 350-360). -/
inductive SFError where
  | network (msg : String)
  | timeout (ms : Nat)
  | userAbort
  | groupAbort
  | rawAbort
  | serverError (status : Nat)
  | hookError (msg : String)
deriving DecidableEq, Repr

/-- What a `fetch` rejection looks like before classification: either an
`AbortError` (together with which merged-signal component had tripped, the
data consulted by lines 352-357) or any other network-level failure. -/
inductive FetchError where
  | abortErr (timeoutFired userFired groupFired : Bool)
  | other (msg : String)
deriving DecidableEq, Repr

/-- One transport attempt either resolves with a response or rejects. -/
inductive FetchOutcome where
  | resp (r : Resp)
  | err (e : FetchError)
deriving DecidableEq, Repr

/-- An attempt outcome that line 330 onward does not break on: a rejection,
or a response with status at least 500. -/
def retryable : FetchOutcome → Bool
  | .resp r => decide (500 ≤ r.status)
  | .err _ => true

/-- JS truthiness of the `timeout` option (line 308 creates the timeout
controller only when `timeout` is truthy). -/
def timeoutTruthy : Option Nat → Bool
  | Option.none => false
  | some ms => ms != 0

/-- Error classification of the catch block (lines 350-361): an
`AbortError` is attributed to the per-attempt timeout controller, the
caller's signal or the instance controller, in that order; any other error
is kept as the network failure it is. -/
def classify (timeout : Option Nat) : FetchError → SFError
  | .abortErr tf uf gf =>
      if timeoutTruthy timeout && tf then .timeout (timeout.getD 0)
      else if uf then .userAbort
      else if gf then .groupAbort
      else .rawAbort
  | .other msg => .network msg

/-! ## The retry loop (lines 295-375) -/

/-- Result of the retry loop: the `response` and `lastError` variables of
lines 295-296 at loop exit, the number of transport attempts performed, and
the attempt indices at which `onResponseError` was invoked. -/
structure LoopResult where
  response : Option Resp
  lastError : Option SFError
  attempts : Nat
  respErrCalls : List Nat
deriving DecidableEq, Repr

/-- The value `response` ends up with when the loop breaks at a sub-500
response `r` obtained on attempt `k` (lines 330-340): the hook substitute
when `onResponseError` is registered, the response is not ok, and the hook
returns a `Response`; otherwise `r` itself. -/
def respAfterHook (hook : Option (Resp → Nat → Option Resp)) (r : Resp)
    (k : Nat) : Resp :=
  match hook with
  | Option.none => r
  | some h => if r.ok then r else (h r k).getD r

/-- Whether the break at a sub-500 response `r` invokes `onResponseError`
(line 331): the hook is registered and the response is not ok. -/
def hookRuns (hook : Option (Resp → Nat → Option Resp)) (r : Resp) : Bool :=
  hook.isSome && !r.ok

/-- The body of the `for` loop of lines 299-375, as a recursion on the
number of remaining loop iterations (`rem` starts at `retries + 1`, the
loop guard being `attempt <= retries`).  State threaded exactly as in the
source: `resp0`/`err0` are the current values of the `response` and
`lastError` variables — in particular `response` is NOT reset between
attempts, so a response assigned by an earlier attempt survives a later
transport failure.
* sub-500 response: run `onResponseError` when the response is not ok,
  keep a returned substitute, and break (lines 330-340);
* response of 500 or more: when attempts remain, `throw` is caught below,
  `lastError` becomes the server error, and the loop continues after the
  delay (lines 341-345, 369-372); on the last attempt the code falls
  through to the `break` of line 374 with the 5xx response in hand;
* rejection: `lastError` becomes the classified error and the loop
  continues when attempts remain, else falls through to the break
  (lines 346-372). -/
def runAttempts (hook : Option (Resp → Nat → Option Resp))
    (timeout : Option Nat) (tr : Nat → FetchOutcome) (retries : Nat) :
    Nat → Nat → Option Resp → Option SFError → LoopResult
  | 0, _, resp0, err0 => ⟨resp0, err0, 0, []⟩
  | rem + 1, attempt, resp0, err0 =>
    match tr attempt with
    | .resp r =>
      if r.status < 500 then
        match hook with
        | some h =>
          if r.ok then ⟨some r, err0, 1, []⟩
          else
            match h r attempt with
            | some sub => ⟨some sub, err0, 1, [attempt]⟩
            | Option.none => ⟨some r, err0, 1, [attempt]⟩
        | Option.none => ⟨some r, err0, 1, []⟩
      else
        if attempt < retries then
          let rest := runAttempts hook timeout tr retries rem (attempt + 1)
            (some r) (some (.serverError r.status))
          ⟨rest.response, rest.lastError, rest.attempts + 1, rest.respErrCalls⟩
        else
          ⟨some r, err0, 1, []⟩
    | .err e =>
      let ce := classify timeout e
      if attempt < retries then
        let rest := runAttempts hook timeout tr retries rem (attempt + 1)
          resp0 (some ce)
        ⟨rest.response, rest.lastError, rest.attempts + 1, rest.respErrCalls⟩
      else
        ⟨resp0, some ce, 1, []⟩

/-- The whole retry loop of lines 295-375: attempts `0 .. retries`, starting
with `response` and `lastError` undefined. -/
def retryLoop (hook : Option (Resp → Nat → Option Resp))
    (timeout : Option Nat) (tr : Nat → FetchOutcome) (retries : Nat) :
    LoopResult :=
  runAttempts hook timeout tr retries (retries + 1) 0 Option.none Option.none

/-! ## Status dispatch and the orchestrator (lines 207-419) -/

/-- Request options relevant to the orchestrator (`RequestInitExt` after
the destructuring defaults of lines 245-256). -/
structure RequestInit where
  headers : Headers
  body : Body
  timeout : Option Nat
  retries : Nat
  retryDelay : Nat
deriving Repr

/-- Instance configuration (`SafeFetchConfig`), restricted to what the
orchestrator consults.  `statusCodes` is the set of numeric codes `c` for
which a handler field `on<c>` is registered; the dynamic lookup
`localConfig["on" + status]` of line 396 and the generic 5xx handler
`localConfig.on500` of line 405 resolve to the same field for code 500, so
membership of `500` models both.  `onRequest` may throw (modelled by
`Except`). -/
structure Config where
  headers : Headers
  onRequest : Option (RequestInit → Except SFError RequestInit)
  onResponseError : Option (Resp → Nat → Option Resp)
  statusCodes : List Nat
  hasOnResponse : Bool
  hasOnError : Bool

/-- Observable hook invocations after a final outcome is selected. -/
inductive HookEvt where
  | exact (code : Nat)
  | generic500
  | postResponse
  | networkError
deriving DecidableEq, Repr

/-- Status dispatch plus the post-response hook (lines 395-413), in source
order: the exact-status handler `on<status>` when registered, then
`on500` when the status is at least 500, `on500` is registered and the
status is not exactly 500, then `onResponse`. -/
def statusDispatch (cfg : Config) (status : Nat) : List HookEvt :=
  (if status ∈ cfg.statusCodes then [HookEvt.exact status] else [])
    ++ (if 500 ≤ status ∧ 500 ∈ cfg.statusCodes ∧ status ≠ 500 then
          [HookEvt.generic500] else [])
    ++ (if cfg.hasOnResponse then [HookEvt.postResponse] else [])

/-- The pre-request hook call of lines 241-243. -/
def runOnRequest (cfg : Config) (req : RequestInit) :
    Except SFError RequestInit :=
  match cfg.onRequest with
  | Option.none => .ok req
  | some h => h req

/-- Final outcome of one `core` call. -/
inductive CoreResult where
  | ok (r : Resp)
  | err (e : SFError)
deriving DecidableEq, Repr

/-- What one `core` call produces: the result (returned response or thrown
error), the hook invocations performed after the loop, the number of
transport attempts, and the body/header pair handed to the transport (when
the call got that far). -/
structure CoreOutcome where
  result : CoreResult
  events : List HookEvt
  attempts : Nat
  sentBody : Option Body
  sentHeaders : Option Headers

/-- The orchestrator `core` (lines 207-419), with the instance registry
`activeControllers` passed explicitly as the list of registered controller
ids and `cid` the fresh controller created for this call (line 233).
Faithful control flow:
1. `activeControllers.add(requestController)` (line 234);
2. instance headers merged with call headers (lines 236-239);
3. the `onRequest` hook (lines 241-243) — it runs BEFORE the
   `try`/`finally` of lines 298-418, so when it throws the error
   propagates without the `finally` deleting the controller;
4. body encoding (lines 258-293), the retry loop (lines 295-375);
5. no response: `onError` then `throw lastError` (lines 377-393);
   response in hand: status dispatch, `onResponse`, return (lines 395-415);
6. on every exit of the `try`, `activeControllers.delete(requestController)`
   (lines 416-418). -/
def core (cfg : Config) (req : RequestInit) (tr : Nat → FetchOutcome)
    (registry : List Nat) (cid : Nat) : CoreOutcome × List Nat :=
  let registry1 := cid :: registry
  let merged : RequestInit :=
    { req with headers := mergeHeaders cfg.headers req.headers }
  match runOnRequest cfg merged with
  | .error e =>
      (⟨.err e, [], 0, Option.none, Option.none⟩, registry1)
  | .ok fin =>
      let enc := encodeBody fin.body fin.headers
      let lr := retryLoop cfg.onResponseError fin.timeout tr fin.retries
      let registry2 := registry1.filter (fun c => c != cid)
      match lr.response with
      | Option.none =>
          (⟨.err (lr.lastError.getD (.network "undefined")),
             (if cfg.hasOnError then [HookEvt.networkError] else []),
             lr.attempts, some enc.1, some enc.2⟩, registry2)
      | some r =>
          (⟨.ok r, statusDispatch cfg r.status, lr.attempts,
             some enc.1, some enc.2⟩, registry2)

/-! ## Instance registry and bulk cancellation (lines 485-488) -/

/-- The cancellation state of one instance: the ids in `activeControllers`
and the ids of controllers that have ever been told to abort. -/
structure InstanceState where
  registered : List Nat
  aborted : List Nat
deriving DecidableEq, Repr

/-- `abortAll` (lines 485-488): `activeControllers.forEach((c) => c.abort())`
followed by `activeControllers.clear()`. -/
def abortAll (s : InstanceState) : InstanceState :=
  ⟨[], s.aborted ++ s.registered⟩

/-! ## Signal combinator (lines 507-549) -/

/-- An `AbortSignal` as observable at combine-time: whether it is already
aborted and the reason it carries (an opaque id). -/
structure Signal where
  aborted : Bool
  reason : Nat
deriving DecidableEq, Repr

/-- What `mergeSignals` returns: `undefined`, one of the input signals
itself (no wrapper), or a fresh controller's signal with the given aborted
state and reason. -/
inductive MergeOutcome where
  | noSignal
  | single (s : Signal)
  | fresh (aborted : Bool) (reason : Option Nat)
deriving DecidableEq, Repr

/-- `mergeSignals` (lines 507-549): drop null/undefined entries; zero
signals left yields `undefined`; exactly one is returned unchanged; for two
or more, an input already aborted at combine-time yields an immediately
aborted signal carrying the first such input's reason (the native
`AbortSignal.any` branch of lines 517-520 and the polyfill loop of
lines 531-536 agree on this observable behaviour), and otherwise a fresh
pending signal subscribed to every input (lines 538-548). -/
def mergeSignals (signals : List (Option Signal)) : MergeOutcome :=
  match signals.filterMap id with
  | [] => .noSignal
  | [s] => .single s
  | active =>
      match active.find? (fun s => s.aborted) with
      | some s => .fresh true (some s.reason)
      | Option.none => .fresh false Option.none

/-! ## Concrete fixtures used by closed theorems -/

/-- A configuration with no hooks and no handlers. -/
def cfgPlain : Config :=
  ⟨[], Option.none, Option.none, [], false, false⟩

/-- A configuration whose `onRequest` hook throws. -/
def cfgThrowReq : Config :=
  ⟨[], some (fun _ => .error (.hookError "boom")), Option.none, [], false,
    false⟩

/-- A transport that yields a 503 response on attempt 0 and a network-level
failure on every later attempt. -/
def trStale : Nat → FetchOutcome
  | 0 => .resp ⟨503, 0⟩
  | _ => .err (.other "connection failed")

/-- A bare request descriptor with one retry. -/
def reqRetry1 : RequestInit :=
  ⟨[], .none, Option.none, 1, 1000⟩

/-- A transport that yields a 503 on attempt 0 and a 404 afterwards. -/
def trW4 : Nat → FetchOutcome
  | 0 => .resp ⟨503, 8⟩
  | _ => .resp ⟨404, 9⟩

/-- A configuration with exact handlers registered for codes 500 and 502. -/
def cfg5 : Config :=
  ⟨[], Option.none, Option.none, [500, 502], false, false⟩

/-- A recoverable-error hook that always substitutes the response tagged
`⟨200, 77⟩`. -/
def hookSub : Resp → Nat → Option Resp :=
  fun _ _ => some ⟨200, 77⟩

/-- A configuration whose only hook is the recoverable-error hook
`hookSub`. -/
def cfgRec : Config :=
  ⟨[], Option.none, some hookSub, [], false, false⟩

/-! ## Helper lemmas about headers -/

theorem find?_append_of_none {α : Type} (p : α → Bool) (l1 l2 : List α)
    (h : l1.find? p = Option.none) :
    (l1 ++ l2).find? p = l2.find? p := by
  induction l1 with
  | nil => simp
  | cons a t ih =>
    cases hpa : p a with
    | true => simp [List.find?_cons, hpa] at h
    | false =>
      simp only [List.find?_cons, hpa] at h
      simpa [List.find?_cons, hpa] using ih h

theorem filter_find?_ne_none (h : Headers) (k : String) :
    (h.filter (fun q => q.1 != k)).find? (fun q => q.1 == k)
      = Option.none := by
  refine List.find?_eq_none.mpr ?_
  intro q hq
  have hmem := List.mem_filter.mp hq
  simpa using hmem.2

theorem hLookup_hDelete (h : Headers) (k : String) :
    hLookup (hDelete h k) k = Option.none := by
  simp [hLookup, hDelete, filter_find?_ne_none]

theorem hLookup_hSet (h : Headers) (k v : String) :
    hLookup (hSet h k v) k = some v := by
  have h2 := find?_append_of_none (fun q => q.1 == k)
    (h.filter (fun q => q.1 != k)) [(k, v)] (filter_find?_ne_none h k)
  simp [hSet, hLookup, h2, List.find?]

/-! ## Step lemmas for the retry loop -/

theorem runAttempts_break (hook : Option (Resp → Nat → Option Resp))
    (timeout : Option Nat) (tr : Nat → FetchOutcome)
    (retries rem attempt : Nat) (resp0 : Option Resp)
    (err0 : Option SFError) (r : Resp)
    (htra : tr attempt = .resp r) (hst : r.status < 500) :
    runAttempts hook timeout tr retries (rem + 1) attempt resp0 err0
      = ⟨some (respAfterHook hook r attempt), err0, 1,
          if hookRuns hook r then [attempt] else []⟩ := by
  cases hook with
  | none => simp [runAttempts, htra, hst, respAfterHook, hookRuns]
  | some h =>
    cases hok : r.ok with
    | true => simp [runAttempts, htra, hst, respAfterHook, hookRuns, hok]
    | false =>
      cases hsub : h r attempt with
      | none =>
        simp [runAttempts, htra, hst, respAfterHook, hookRuns, hok, hsub]
      | some sub =>
        simp [runAttempts, htra, hst, respAfterHook, hookRuns, hok, hsub]

theorem runAttempts_step5xx (hook : Option (Resp → Nat → Option Resp))
    (timeout : Option Nat) (tr : Nat → FetchOutcome)
    (retries rem attempt : Nat) (resp0 : Option Resp)
    (err0 : Option SFError) (r : Resp)
    (htra : tr attempt = .resp r) (hst : ¬ r.status < 500)
    (hlt : attempt < retries) :
    runAttempts hook timeout tr retries (rem + 1) attempt resp0 err0
      = ⟨(runAttempts hook timeout tr retries rem (attempt + 1) (some r)
            (some (.serverError r.status))).response,
          (runAttempts hook timeout tr retries rem (attempt + 1) (some r)
            (some (.serverError r.status))).lastError,
          (runAttempts hook timeout tr retries rem (attempt + 1) (some r)
            (some (.serverError r.status))).attempts + 1,
          (runAttempts hook timeout tr retries rem (attempt + 1) (some r)
            (some (.serverError r.status))).respErrCalls⟩ := by
  simp [runAttempts, htra, hst, hlt]

theorem runAttempts_last5xx (hook : Option (Resp → Nat → Option Resp))
    (timeout : Option Nat) (tr : Nat → FetchOutcome)
    (retries rem attempt : Nat) (resp0 : Option Resp)
    (err0 : Option SFError) (r : Resp)
    (htra : tr attempt = .resp r) (hst : ¬ r.status < 500)
    (hge : ¬ attempt < retries) :
    runAttempts hook timeout tr retries (rem + 1) attempt resp0 err0
      = ⟨some r, err0, 1, []⟩ := by
  simp [runAttempts, htra, hst, hge]

theorem runAttempts_stepErr (hook : Option (Resp → Nat → Option Resp))
    (timeout : Option Nat) (tr : Nat → FetchOutcome)
    (retries rem attempt : Nat) (resp0 : Option Resp)
    (err0 : Option SFError) (e : FetchError)
    (htra : tr attempt = .err e) (hlt : attempt < retries) :
    runAttempts hook timeout tr retries (rem + 1) attempt resp0 err0
      = ⟨(runAttempts hook timeout tr retries rem (attempt + 1) resp0
            (some (classify timeout e))).response,
          (runAttempts hook timeout tr retries rem (attempt + 1) resp0
            (some (classify timeout e))).lastError,
          (runAttempts hook timeout tr retries rem (attempt + 1) resp0
            (some (classify timeout e))).attempts + 1,
          (runAttempts hook timeout tr retries rem (attempt + 1) resp0
            (some (classify timeout e))).respErrCalls⟩ := by
  simp [runAttempts, htra, hlt]

theorem runAttempts_lastErr (hook : Option (Resp → Nat → Option Resp))
    (timeout : Option Nat) (tr : Nat → FetchOutcome)
    (retries rem attempt : Nat) (resp0 : Option Resp)
    (err0 : Option SFError) (e : FetchError)
    (htra : tr attempt = .err e) (hge : ¬ attempt < retries) :
    runAttempts hook timeout tr retries (rem + 1) attempt resp0 err0
      = ⟨resp0, some (classify timeout e), 1, []⟩ := by
  simp [runAttempts, htra, hge]

/-! ## Behaviour of whole loop runs -/

theorem runAttempts_all5xx (hook : Option (Resp → Nat → Option Resp))
    (timeout : Option Nat) (tr : Nat → FetchOutcome) (retries : Nat)
    (resp : Nat → Resp) (htr : ∀ i, tr i = .resp (resp i))
    (hst : ∀ i, 500 ≤ (resp i).status) :
    ∀ rem attempt resp0 err0, attempt + rem = retries + 1 → 0 < rem →
      (runAttempts hook timeout tr retries rem attempt resp0 err0).response
          = some (resp retries) ∧
      (runAttempts hook timeout tr retries rem attempt resp0 err0).attempts
          = rem := by
  intro rem
  induction rem with
  | zero =>
    intro attempt r0 e0 hsum hpos
    omega
  | succ n ih =>
    intro attempt r0 e0 hsum hpos
    have h5 : ¬ (resp attempt).status < 500 := by
      have := hst attempt
      omega
    by_cases hlt : attempt < retries
    · rw [runAttempts_step5xx hook timeout tr retries n attempt r0 e0
        (resp attempt) (htr attempt) h5 hlt]
      have hrec := ih (attempt + 1) (some (resp attempt))
        (some (.serverError (resp attempt).status)) (by omega) (by omega)
      simpa using hrec
    · have heq : attempt = retries := by omega
      rw [runAttempts_last5xx hook timeout tr retries n attempt r0 e0
        (resp attempt) (htr attempt) h5 hlt]
      subst heq
      refine ⟨rfl, ?_⟩
      simp
      omega

theorem runAttempts_allErr (hook : Option (Resp → Nat → Option Resp))
    (timeout : Option Nat) (tr : Nat → FetchOutcome) (retries : Nat)
    (es : Nat → FetchError) (htr : ∀ i, tr i = .err (es i)) :
    ∀ rem attempt resp0 err0, attempt + rem = retries + 1 → 0 < rem →
      runAttempts hook timeout tr retries rem attempt resp0 err0
        = ⟨resp0, some (classify timeout (es retries)), rem, []⟩ := by
  intro rem
  induction rem with
  | zero =>
    intro attempt r0 e0 hsum hpos
    omega
  | succ n ih =>
    intro attempt r0 e0 hsum hpos
    by_cases hlt : attempt < retries
    · rw [runAttempts_stepErr hook timeout tr retries n attempt r0 e0
        (es attempt) (htr attempt) hlt]
      have hrec := ih (attempt + 1) r0 (some (classify timeout (es attempt)))
        (by omega) (by omega)
      simp [hrec]
    · have heq : attempt = retries := by omega
      rw [runAttempts_lastErr hook timeout tr retries n attempt r0 e0
        (es attempt) (htr attempt) hlt]
      subst heq
      have hn : n = 0 := by omega
      simp [hn]

theorem runAttempts_reach (hook : Option (Resp → Nat → Option Resp))
    (timeout : Option Nat) (tr : Nat → FetchOutcome) (retries k : Nat)
    (r : Resp) (hk : k ≤ retries)
    (hpre : ∀ i, i < k → retryable (tr i) = true)
    (htrk : tr k = .resp r) (hst : r.status < 500) :
    ∀ rem attempt resp0 err0, attempt + rem = retries + 1 → attempt ≤ k →
      (runAttempts hook timeout tr retries rem attempt resp0 err0).response
          = some (respAfterHook hook r k) ∧
      (runAttempts hook timeout tr retries rem attempt resp0 err0).attempts
          = k + 1 - attempt ∧
      (runAttempts hook timeout tr retries rem attempt resp0 err0).respErrCalls
          = (if hookRuns hook r then [k] else []) := by
  intro rem
  induction rem with
  | zero =>
    intro attempt r0 e0 hsum hak
    omega
  | succ n ih =>
    intro attempt r0 e0 hsum hak
    by_cases hek : attempt = k
    · subst hek
      rw [runAttempts_break hook timeout tr retries n attempt r0 e0 r htrk hst]
      refine ⟨rfl, by simp, rfl⟩
    · have hlt : attempt < k := lt_of_le_of_ne hak hek
      have hltr : attempt < retries := by omega
      have hretry := hpre attempt hlt
      cases htra : tr attempt with
      | resp r2 =>
        have h5 : ¬ r2.status < 500 := by
          rw [htra] at hretry
          simp [retryable] at hretry
          omega
        rw [runAttempts_step5xx hook timeout tr retries n attempt r0 e0 r2
          htra h5 hltr]
        have hrec := ih (attempt + 1) (some r2)
          (some (.serverError r2.status)) (by omega) (by omega)
        refine ⟨by simpa using hrec.1, ?_, by simpa using hrec.2.2⟩
        simp [hrec.2.1]
        omega
      | err e =>
        rw [runAttempts_stepErr hook timeout tr retries n attempt r0 e0 e
          htra hltr]
        have hrec := ih (attempt + 1) r0 (some (classify timeout e))
          (by omega) (by omega)
        refine ⟨by simpa using hrec.1, ?_, by simpa using hrec.2.2⟩
        simp [hrec.2.1]
        omega

theorem runAttempts_le (hook : Option (Resp → Nat → Option Resp))
    (timeout : Option Nat) (tr : Nat → FetchOutcome) (retries k : Nat)
    (r : Resp) (htrk : tr k = .resp r) (hst : r.status < 500) :
    ∀ rem attempt resp0 err0, attempt ≤ k →
      (runAttempts hook timeout tr retries rem attempt resp0 err0).attempts
        ≤ k + 1 - attempt := by
  intro rem
  induction rem with
  | zero =>
    intro attempt r0 e0 hak
    simp [runAttempts]
  | succ n ih =>
    intro attempt r0 e0 hak
    by_cases hek : attempt = k
    · subst hek
      rw [runAttempts_break hook timeout tr retries n attempt r0 e0 r htrk hst]
      simp
    · have hlt : attempt < k := lt_of_le_of_ne hak hek
      cases htra : tr attempt with
      | resp r2 =>
        by_cases h5 : r2.status < 500
        · rw [runAttempts_break hook timeout tr retries n attempt r0 e0 r2
            htra h5]
          simp
          omega
        · by_cases hltr : attempt < retries
          · rw [runAttempts_step5xx hook timeout tr retries n attempt r0 e0 r2
              htra h5 hltr]
            have hrec := ih (attempt + 1) (some r2)
              (some (.serverError r2.status)) (by omega)
            simp at hrec ⊢
            omega
          · rw [runAttempts_last5xx hook timeout tr retries n attempt r0 e0 r2
              htra h5 hltr]
            simp
            omega
      | err e =>
        by_cases hltr : attempt < retries
        · rw [runAttempts_stepErr hook timeout tr retries n attempt r0 e0 e
            htra hltr]
          have hrec := ih (attempt + 1) r0 (some (classify timeout e))
            (by omega)
          simp at hrec ⊢
          omega
        · rw [runAttempts_lastErr hook timeout tr retries n attempt r0 e0 e
            htra hltr]
          simp
          omega

theorem retryLoop_zero_attempts (hook : Option (Resp → Nat → Option Resp))
    (timeout : Option Nat) (tr : Nat → FetchOutcome) :
    (retryLoop hook timeout tr 0).attempts = 1 := by
  unfold retryLoop
  cases htra : tr 0 with
  | resp r =>
    by_cases h5 : r.status < 500
    · rw [runAttempts_break hook timeout tr 0 0 0 Option.none Option.none r
        htra h5]
    · rw [runAttempts_last5xx hook timeout tr 0 0 0 Option.none Option.none r
        htra h5 (by omega)]
  | err e =>
    rw [runAttempts_lastErr hook timeout tr 0 0 0 Option.none Option.none e
      htra (by omega)]

theorem runAttempts_noHookCall (hook : Option (Resp → Nat → Option Resp))
    (timeout : Option Nat) (tr : Nat → FetchOutcome) (retries : Nat)
    (hgood : ∀ i r, tr i = .resp r → r.status < 500 → r.ok = true) :
    ∀ rem attempt resp0 err0,
      (runAttempts hook timeout tr retries rem attempt resp0 err0).respErrCalls
        = [] := by
  intro rem
  induction rem with
  | zero =>
    intro attempt r0 e0
    simp [runAttempts]
  | succ n ih =>
    intro attempt r0 e0
    cases htra : tr attempt with
    | resp r =>
      by_cases h5 : r.status < 500
      · rw [runAttempts_break hook timeout tr retries n attempt r0 e0 r
          htra h5]
        have hok := hgood attempt r htra h5
        simp [hookRuns, hok]
      · by_cases hltr : attempt < retries
        · rw [runAttempts_step5xx hook timeout tr retries n attempt r0 e0 r
            htra h5 hltr]
          simpa using ih (attempt + 1) (some r) (some (.serverError r.status))
        · rw [runAttempts_last5xx hook timeout tr retries n attempt r0 e0 r
            htra h5 hltr]
    | err e =>
      by_cases hltr : attempt < retries
      · rw [runAttempts_stepErr hook timeout tr retries n attempt r0 e0 e
          htra hltr]
        simpa using ih (attempt + 1) r0 (some (classify timeout e))
      · rw [runAttempts_lastErr hook timeout tr retries n attempt r0 e0 e
          htra hltr]

theorem runAttempts_hookNone (timeout : Option Nat)
    (tr : Nat → FetchOutcome) (retries : Nat) :
    ∀ rem attempt resp0 err0,
      (runAttempts Option.none timeout tr retries rem attempt
        resp0 err0).respErrCalls = [] := by
  intro rem
  induction rem with
  | zero =>
    intro attempt r0 e0
    simp [runAttempts]
  | succ n ih =>
    intro attempt r0 e0
    cases htra : tr attempt with
    | resp r =>
      by_cases h5 : r.status < 500
      · rw [runAttempts_break Option.none timeout tr retries n attempt r0 e0 r
          htra h5]
        simp [hookRuns]
      · by_cases hltr : attempt < retries
        · rw [runAttempts_step5xx Option.none timeout tr retries n attempt r0
            e0 r htra h5 hltr]
          simpa using ih (attempt + 1) (some r) (some (.serverError r.status))
        · rw [runAttempts_last5xx Option.none timeout tr retries n attempt r0
            e0 r htra h5 hltr]
    | err e =>
      by_cases hltr : attempt < retries
      · rw [runAttempts_stepErr Option.none timeout tr retries n attempt r0 e0
          e htra hltr]
        simpa using ih (attempt + 1) r0 (some (classify timeout e))
      · rw [runAttempts_lastErr Option.none timeout tr retries n attempt r0 e0
          e htra hltr]

/-! ## Claim theorems -/

/-- Claim C1 (code bug).  The claim states that the controller registered
for a call is removed from `activeControllers` on every exit path,
including a failure thrown by the pre-request hook before the first
attempt.  The code violates this: the controller is added at line 234 and
the `onRequest` hook runs at lines 241-243, but the `try`/`finally` whose
`finally` performs the delete only begins at line 298; an exception thrown
by `onRequest` therefore escapes `core` with the controller still
registered.  This theorem exhibits the failing input: with a throwing
`onRequest` hook, `core` fails with the hook's error while controller `7`
is still in the registry; with no hook, the same call leaves the registry
clean. -/
theorem sfC1_bug :
    (core cfgThrowReq reqRetry1 trStale [] 7).1.result
        = CoreResult.err (SFError.hookError "boom") ∧
    (core cfgThrowReq reqRetry1 trStale [] 7).2 = [7] ∧
    (core cfgPlain reqRetry1 trStale [] 7).2 = [] := by
  refine ⟨rfl, rfl, rfl⟩

/-- Claim C2: with `retries = N` and a transport whose every attempt yields
a response with status at least 500 (for instance, always 503), the call
performs exactly `N + 1` transport attempts and resolves successfully with
the final 5xx response, rather than failing with an exhausted-retry
error. -/
theorem sfC2 (cfg : Config) (req : RequestInit) (tr : Nat → FetchOutcome)
    (registry : List Nat) (cid : Nat) (resp : Nat → Resp)
    (hreq : cfg.onRequest = Option.none)
    (htr : ∀ i, tr i = .resp (resp i))
    (hst : ∀ i, 500 ≤ (resp i).status) :
    (core cfg req tr registry cid).1.attempts = req.retries + 1 ∧
    (core cfg req tr registry cid).1.result
        = CoreResult.ok (resp req.retries) := by
  have hloop := runAttempts_all5xx cfg.onResponseError req.timeout tr
    req.retries resp htr hst (req.retries + 1) 0 Option.none Option.none
    (by omega) (by omega)
  simp only [core, runOnRequest, hreq, retryLoop] at *
  rw [hloop.1]
  exact ⟨hloop.2, rfl⟩

/-- Witness for C2 at `retries = 1` and a transport that always returns the
503 response tagged `⟨503, 5⟩`: two attempts, resolved with that 503. -/
theorem sfC2_witness :
    (core cfgPlain reqRetry1 (fun _ => .resp ⟨503, 5⟩) [] 0).1.attempts = 2 ∧
    (core cfgPlain reqRetry1 (fun _ => .resp ⟨503, 5⟩) [] 0).1.result
        = CoreResult.ok ⟨503, 5⟩ := by
  have h := sfC2 cfgPlain reqRetry1 (fun _ => .resp ⟨503, 5⟩) [] 0
    (fun _ => ⟨503, 5⟩) rfl (fun _ => rfl) (fun _ => by norm_num)
  exact h

/-- Claim C3 counterexample.  The claim states that whenever the last
attempt is a transport-level failure with no retries remaining, the call
fails with the last classified error and no `Response` is produced — even
when an earlier attempt had obtained a 5xx response.  The code violates
this: the `response` variable of line 296 is never cleared between
attempts, so with `retries = 1`, a 503 on attempt 0 and a network failure
on attempt 1, `core` returns the stale 503 response from attempt 0 instead
of throwing the classified network error. -/
theorem sfC3_counterexample :
    trStale 1 = .err (.other "connection failed") ∧
    (core cfgPlain reqRetry1 trStale [] 0).1.result
        = CoreResult.ok ⟨503, 0⟩ ∧
    (core cfgPlain reqRetry1 trStale [] 0).1.result
        ≠ CoreResult.err (classify Option.none (.other "connection failed")) := by
  refine ⟨rfl, rfl, by decide⟩

/-- Claim C3, amended: for every call in which EVERY attempt (hence also
the last) fails at the transport level before obtaining any status code,
the final outcome is the last classified error, no `Response` is produced,
and all `retries + 1` attempts occur.  (When an earlier attempt did obtain
a 5xx response, the code instead resolves with that stale response — see
the counterexample.) -/
theorem sfC3_amended (cfg : Config) (req : RequestInit)
    (tr : Nat → FetchOutcome) (registry : List Nat) (cid : Nat)
    (es : Nat → FetchError) (hreq : cfg.onRequest = Option.none)
    (htr : ∀ i, tr i = .err (es i)) :
    (core cfg req tr registry cid).1.result
        = CoreResult.err (classify req.timeout (es req.retries)) ∧
    (core cfg req tr registry cid).1.attempts = req.retries + 1 := by
  have hloop := runAttempts_allErr cfg.onResponseError req.timeout tr
    req.retries es htr (req.retries + 1) 0 Option.none Option.none
    (by omega) (by omega)
  simp only [core, runOnRequest, hreq, retryLoop] at *
  rw [hloop]
  exact ⟨rfl, rfl⟩

/-- Witness for the amended C3: two network failures with `retries = 1`
yield the classified network error after two attempts. -/
theorem sfC3_witness :
    (core cfgPlain reqRetry1 (fun _ => .err (.other "dns down")) [] 0).1.result
        = CoreResult.err (SFError.network "dns down") ∧
    (core cfgPlain reqRetry1 (fun _ => .err (.other "dns down")) [] 0).1.attempts
        = 2 := by
  have h := sfC3_amended cfgPlain reqRetry1 (fun _ => .err (.other "dns down"))
    [] 0 (fun _ => .other "dns down") rfl (fun _ => rfl)
  exact h

/-- Claim C4: an attempt whose transport outcome is a response with status
below 500 ends the retry loop at once — no attempt with a higher index is
ever performed (first conjunct); if the loop reaches such an attempt `k`
(all earlier outcomes retryable), it stops there with exactly `k + 1`
attempts and that response as the loop's response (second conjunct, stated
without a recoverable-error hook, which could otherwise substitute the
response); and with `retries = 0` exactly one transport attempt occurs
regardless of the outcome (third conjunct). -/
theorem sfC4 :
    (∀ hook timeout tr retries k (r : Resp), tr k = FetchOutcome.resp r →
        r.status < 500 →
        (retryLoop hook timeout tr retries).attempts ≤ k + 1) ∧
    (∀ timeout tr retries k (r : Resp), k ≤ retries →
        (∀ i, i < k → retryable (tr i) = true) →
        tr k = FetchOutcome.resp r → r.status < 500 →
        (retryLoop Option.none timeout tr retries).attempts = k + 1 ∧
        (retryLoop Option.none timeout tr retries).response = some r) ∧
    (∀ hook timeout tr, (retryLoop hook timeout tr 0).attempts = 1) := by
  refine ⟨?_, ?_, ?_⟩
  · intro hook timeout tr retries k r htrk hst
    have h := runAttempts_le hook timeout tr retries k r htrk hst
      (retries + 1) 0 Option.none Option.none (by omega)
    simpa [retryLoop] using h
  · intro timeout tr retries k r hk hpre htrk hst
    have h := runAttempts_reach Option.none timeout tr retries k r hk hpre
      htrk hst (retries + 1) 0 Option.none Option.none (by omega) (by omega)
    exact ⟨by simpa [retryLoop] using h.2.1,
      by simpa [retryLoop, respAfterHook] using h.1⟩
  · intro hook timeout tr
    exact retryLoop_zero_attempts hook timeout tr

/-- Witness for C4: a 404 on the very first attempt stops a loop allowed 3
retries after one attempt; a 503 then a 404 with `retries = 2` stops after
two attempts with the 404; and `retries = 0` performs exactly one attempt
even when the transport always fails. -/
theorem sfC4_witness :
    (retryLoop Option.none Option.none (fun _ => .resp ⟨404, 1⟩) 3).attempts
        ≤ 1 ∧
    (retryLoop Option.none Option.none trW4 2).attempts = 2 ∧
    (retryLoop Option.none Option.none trW4 2).response = some ⟨404, 9⟩ ∧
    (retryLoop Option.none Option.none
        (fun _ => .err (.other "down")) 0).attempts = 1 := by
  have h := sfC4
  have h2 := h.2.1 Option.none trW4 2 1 ⟨404, 9⟩ (by norm_num)
    (fun i hi => by
      have hi0 : i = 0 := by omega
      subst hi0
      rfl)
    rfl (by norm_num)
  exact ⟨h.1 Option.none Option.none (fun _ => .resp ⟨404, 1⟩) 3 0 ⟨404, 1⟩
      rfl (by norm_num),
    h2.1, h2.2, h.2.2 Option.none Option.none (fun _ => .err (.other "down"))⟩

/-- Claim C5: after a final response is selected, dispatch first invokes
the exact-status handler registered for the response's code (if any), then
the generic 5xx handler exactly when the status is at least 500 and not
exactly 500 (and `on500` is registered); hence a 500 response invokes only
the exact-500 handler once, and a 502 response invokes both the exact-502
handler and the generic 5xx handler, in that order. -/
theorem sfC5 (cfg : Config) :
    (∀ status, HookEvt.generic500 ∈ statusDispatch cfg status ↔
        (500 ≤ status ∧ 500 ∈ cfg.statusCodes ∧ status ≠ 500)) ∧
    (∀ status, status ∈ cfg.statusCodes →
        ∃ rest, statusDispatch cfg status = HookEvt.exact status :: rest) ∧
    (500 ∈ cfg.statusCodes →
        statusDispatch cfg 500 = HookEvt.exact 500 ::
          (if cfg.hasOnResponse then [HookEvt.postResponse] else [])) ∧
    (502 ∈ cfg.statusCodes → 500 ∈ cfg.statusCodes →
        statusDispatch cfg 502 = HookEvt.exact 502 :: HookEvt.generic500 ::
          (if cfg.hasOnResponse then [HookEvt.postResponse] else [])) := by
  refine ⟨?_, ?_, ?_, ?_⟩
  · intro status
    by_cases hgen : 500 ≤ status ∧ 500 ∈ cfg.statusCodes ∧ status ≠ 500 <;>
      simp [statusDispatch, hgen]
  · intro status hmem
    refine ⟨(if 500 ≤ status ∧ 500 ∈ cfg.statusCodes ∧ status ≠ 500 then
        [HookEvt.generic500] else [])
      ++ (if cfg.hasOnResponse then [HookEvt.postResponse] else []), ?_⟩
    simp [statusDispatch, hmem]
  · intro hmem
    simp [statusDispatch, hmem]
  · intro hmem2 hmem5
    simp [statusDispatch, hmem2, hmem5]

/-- Witness for C5 on a configuration with handlers for exactly the codes
500 and 502 and no post-response hook: a 500 invokes only its exact
handler, a 502 invokes its exact handler then the generic 5xx handler. -/
theorem sfC5_witness :
    statusDispatch cfg5 500 = [HookEvt.exact 500] ∧
    statusDispatch cfg5 502 = [HookEvt.exact 502, HookEvt.generic500] := by
  have h := sfC5 cfg5
  exact ⟨by simpa using h.2.2.1 (by decide),
    by simpa using h.2.2.2 (by decide) (by decide)⟩

/-- Claim C6: the recoverable-error hook `onResponseError` runs exactly
when a response is obtained whose status is below 500 and which is not ok
(first two conjuncts: it runs at that attempt and only there; last two
conjuncts: it never runs when every sub-500 response is ok, nor when it is
not registered), and a substitute response it returns becomes the call's
successful result. -/
theorem sfC6 (cfg : Config) (req : RequestInit) (tr : Nat → FetchOutcome)
    (registry : List Nat) (cid : Nat) (h : Resp → Nat → Option Resp)
    (k : Nat) (r sub : Resp) (hreq : cfg.onRequest = Option.none)
    (hhook : cfg.onResponseError = some h) (hk : k ≤ req.retries)
    (hpre : ∀ i, i < k → retryable (tr i) = true)
    (htrk : tr k = FetchOutcome.resp r) (hst : r.status < 500)
    (hok : r.ok = false) (hsub : h r k = some sub) :
    (retryLoop cfg.onResponseError req.timeout tr req.retries).respErrCalls
        = [k] ∧
    (core cfg req tr registry cid).1.result = CoreResult.ok sub ∧
    (∀ hook2 timeout2 tr2 retries2,
        (∀ i r2, tr2 i = FetchOutcome.resp r2 → r2.status < 500 →
          r2.ok = true) →
        (retryLoop hook2 timeout2 tr2 retries2).respErrCalls = []) ∧
    (∀ timeout2 tr2 retries2,
        (retryLoop Option.none timeout2 tr2 retries2).respErrCalls = []) := by
  have hreach := runAttempts_reach cfg.onResponseError req.timeout tr
    req.retries k r hk hpre htrk hst (req.retries + 1) 0 Option.none
    Option.none (by omega) (by omega)
  have hruns : hookRuns cfg.onResponseError r = true := by
    simp [hookRuns, hhook, hok]
  have hafter : respAfterHook cfg.onResponseError r k = sub := by
    simp [respAfterHook, hhook, hok, hsub]
  refine ⟨?_, ?_, ?_, ?_⟩
  · rw [retryLoop]
    rw [hreach.2.2, hruns]
    simp
  · simp only [core, runOnRequest, hreq, retryLoop] at *
    rw [hreach.1, hafter]
  · intro hook2 timeout2 tr2 retries2 hgood
    exact runAttempts_noHookCall hook2 timeout2 tr2 retries2 hgood
      (retries2 + 1) 0 Option.none Option.none
  · intro timeout2 tr2 retries2
    exact runAttempts_hookNone timeout2 tr2 retries2
      (retries2 + 1) 0 Option.none Option.none

/-- Witness for C6: a 401 response on the first attempt with a hook that
substitutes the response tagged `⟨200, 77⟩` makes the call resolve
successfully with the substitute, the hook having run exactly once at
attempt 0. -/
theorem sfC6_witness :
    (retryLoop cfgRec.onResponseError reqRetry1.timeout
        (fun _ => .resp ⟨401, 3⟩) reqRetry1.retries).respErrCalls = [0] ∧
    (core cfgRec reqRetry1 (fun _ => .resp ⟨401, 3⟩) [] 0).1.result
        = CoreResult.ok ⟨200, 77⟩ := by
  have h := sfC6 cfgRec reqRetry1 (fun _ => .resp ⟨401, 3⟩) [] 0 hookSub 0
    ⟨401, 3⟩ ⟨200, 77⟩ rfl rfl (by norm_num)
    (fun i hi => absurd hi (by omega)) rfl (by norm_num) (by decide) rfl
  exact ⟨h.1, h.2.1⟩

/-- Claim C7: `abortAll` signals cancellation to every controller
registered at the time of the call and then clears the registry: afterwards
the registered set is empty and every former member has been told to abort;
it is idempotent; and calling it with zero in-flight calls leaves the state
unchanged. -/
theorem sfC7 (s : InstanceState) :
    (abortAll s).registered = [] ∧
    (∀ c, c ∈ s.registered → c ∈ (abortAll s).aborted) ∧
    abortAll (abortAll s) = abortAll s ∧
    (s.registered = [] → abortAll s = s) := by
  refine ⟨rfl, ?_, ?_, ?_⟩
  · intro c hc
    simp [abortAll]
    exact Or.inr hc
  · simp [abortAll]
  · intro h0
    cases s
    simp_all [abortAll]

/-- Witness for C7 on a registry holding controllers 1 and 2, and on an
idle instance with no in-flight calls. -/
theorem sfC7_witness :
    (abortAll ⟨[1, 2], []⟩).registered = [] ∧
    1 ∈ (abortAll ⟨[1, 2], []⟩).aborted ∧
    abortAll (abortAll ⟨[1, 2], []⟩) = abortAll ⟨[1, 2], []⟩ ∧
    abortAll ⟨[], [3]⟩ = ⟨[], [3]⟩ := by
  have h := sfC7 ⟨[1, 2], []⟩
  exact ⟨h.1, h.2.1 1 (by decide), h.2.2.1, (sfC7 ⟨[], [3]⟩).2.2.2 rfl⟩

/-- Claim C9: `mergeSignals` with zero non-null tokens yields no signal
(`undefined`); with exactly one non-null token it returns that token itself,
unwrapped; and with two or more non-null tokens of which some are already
aborted at combine-time it yields a signal that is already aborted and
carries the reason of the first such input (the fourth conjunct shows that
an aborted input guarantees such a first input exists). -/
theorem sfC9 :
    (∀ sigs : List (Option Signal), sigs.filterMap id = [] →
        mergeSignals sigs = MergeOutcome.noSignal) ∧
    (∀ (sigs : List (Option Signal)) (s : Signal),
        sigs.filterMap id = [s] → mergeSignals sigs = MergeOutcome.single s) ∧
    (∀ (sigs : List (Option Signal)) (s : Signal),
        2 ≤ (sigs.filterMap id).length →
        (sigs.filterMap id).find? (fun x => x.aborted) = some s →
        s.aborted = true ∧ s ∈ sigs.filterMap id ∧
        mergeSignals sigs = MergeOutcome.fresh true (some s.reason)) ∧
    (∀ (sigs : List (Option Signal)) (s : Signal), s ∈ sigs.filterMap id →
        s.aborted = true →
        ((sigs.filterMap id).find? (fun x => x.aborted)).isSome) := by
  refine ⟨?_, ?_, ?_, ?_⟩
  · intro sigs hflt
    simp [mergeSignals, hflt]
  · intro sigs s hflt
    simp [mergeSignals, hflt]
  · intro sigs s hlen hfind
    refine ⟨List.find?_some hfind, List.mem_of_find?_eq_some hfind, ?_⟩
    cases hflt : sigs.filterMap id with
    | nil => simp [hflt] at hlen
    | cons a t =>
      cases t with
      | nil => simp [hflt] at hlen
      | cons b t2 =>
        rw [hflt] at hfind
        simp [mergeSignals, hflt, hfind]
  · intro sigs s hmem habort
    exact List.find?_isSome.mpr ⟨s, hmem, habort⟩

/-- Witness for C9: no tokens give no signal; a single token is returned
itself; two tokens of which the second is already aborted with reason 9
give an immediately aborted merged signal carrying reason 9. -/
theorem sfC9_witness :
    mergeSignals [] = MergeOutcome.noSignal ∧
    mergeSignals [Option.none, some ⟨false, 5⟩]
        = MergeOutcome.single ⟨false, 5⟩ ∧
    mergeSignals [some ⟨false, 1⟩, some ⟨true, 9⟩]
        = MergeOutcome.fresh true (some 9) := by
  have h := sfC9
  refine ⟨h.1 [] rfl, h.2.1 [Option.none, some ⟨false, 5⟩] ⟨false, 5⟩ rfl, ?_⟩
  have h3 := h.2.2.1 [some ⟨false, 1⟩, some ⟨true, 9⟩] ⟨true, 9⟩
    (by decide) (by decide)
  exact h3.2.2

/-- Claim C8 counterexample.  The claim states that for a plain
object/array body, an explicit non-JSON `Content-Type` causes the body to
pass through unserialized.  The code instead tests the header value for JS
truthiness (line 283), so an explicitly supplied EMPTY `Content-Type` —
present in the mapping and different from `application/json` — is treated
as absent: the body is JSON-stringified and the header is overwritten with
`application/json`. -/
theorem sfC8_counterexample :
    hLookup [("Content-Type", "")] "Content-Type" = some "" ∧
    "" ≠ "application/json" ∧
    encodeBody (.jsObject "[1,2]") [("Content-Type", "")]
      = (.str "[1,2]", [("Content-Type", "application/json")]) := by
  refine ⟨rfl, by decide, by decide⟩

/-- Claim C8, amended: for a plain object/array body (not
FormData/Blob/ArrayBuffer/URLSearchParams/ReadableStream), if no
`Content-Type` entry is present the transport receives the
JSON-stringified body and a `Content-Type: application/json` header is
added; if an explicit NON-EMPTY non-JSON `Content-Type` is present the
body is passed through unserialized; an empty-string `Content-Type` is
treated as absent (serialized, header overwritten — see the
counterexample). -/
theorem sfC8_amended (j : String) (h : Headers) :
    (hLookup h "Content-Type" = Option.none →
        encodeBody (.jsObject j) h
          = (.str j, hSet h "Content-Type" "application/json") ∧
        hLookup (encodeBody (.jsObject j) h).2 "Content-Type"
          = some "application/json") ∧
    (∀ ct, hLookup h "Content-Type" = some ct → ct ≠ "application/json" →
        ct ≠ "" → encodeBody (.jsObject j) h = (.jsObject j, h)) ∧
    (hLookup h "Content-Type" = some "" →
        encodeBody (.jsObject j) h
          = (.str j, hSet h "Content-Type" "application/json")) := by
  refine ⟨?_, ?_, ?_⟩
  · intro hct
    constructor
    · simp [encodeBody, hct, truthy]
    · simp [encodeBody, hct, truthy, hLookup_hSet]
  · intro ct hct hne hemp
    have htru : truthy (some ct) = true := by
      simp [truthy]
      exact hemp
    simp [encodeBody, hct, htru, hne]
  · intro hct
    simp [encodeBody, hct, truthy]

/-- Witness for the amended C8: with no `Content-Type` the body `[1,2]` is
stringified and the JSON header added; with `Content-Type: text/plain` the
body passes through untouched. -/
theorem sfC8_witness :
    encodeBody (.jsObject "[1,2]") []
      = (.str "[1,2]", [("Content-Type", "application/json")]) ∧
    encodeBody (.jsObject "[1,2]") [("Content-Type", "text/plain")]
      = (.jsObject "[1,2]", [("Content-Type", "text/plain")]) := by
  constructor
  · exact ((sfC8_amended "[1,2]" []).1 rfl).1
  · exact (sfC8_amended "[1,2]" [("Content-Type", "text/plain")]).2.1
      "text/plain" rfl (by decide) (by decide)

/-- Claim C10 counterexample.  The claim states that for a `FormData` body
any explicit `Content-Type` entry is deleted from the final header mapping
before the transport is invoked.  Line 273 tests the entry's value for JS
truthiness, so an entry whose value is the empty string is NOT deleted: it
remains in the mapping handed to the transport. -/
theorem sfC10_counterexample :
    hLookup [("Content-Type", "")] "Content-Type" = some "" ∧
    encodeBody .formData [("Content-Type", "")]
      = (.formData, [("Content-Type", "")]) := by
  refine ⟨rfl, by decide⟩

/-- Claim C10, amended: for a `FormData` body the body passes through
unchanged, and any `Content-Type` entry with a NON-EMPTY value is deleted
from the final header mapping before the transport is invoked, so such an
explicitly supplied `Content-Type` is never sent with a `FormData` body;
when no entry is present the mapping is untouched.  (An entry whose value
is the empty string is kept — see the counterexample.) -/
theorem sfC10_amended (h : Headers) :
    (∀ ct, hLookup h "Content-Type" = some ct → ct ≠ "" →
        encodeBody .formData h = (.formData, hDelete h "Content-Type") ∧
        hLookup (encodeBody .formData h).2 "Content-Type" = Option.none) ∧
    (hLookup h "Content-Type" = Option.none →
        encodeBody .formData h = (.formData, h)) := by
  constructor
  · intro ct hct hemp
    have htru : truthy (some ct) = true := by
      simp [truthy]
      exact hemp
    constructor
    · simp [encodeBody, hct, htru]
    · simp [encodeBody, hct, htru, hLookup_hDelete]
  · intro hct
    simp [encodeBody, hct, truthy]

/-- Witness for the amended C10: an explicit `Content-Type:
multipart/form-data` entry is deleted when the body is `FormData`, and an
absent entry leaves the mapping untouched. -/
theorem sfC10_witness :
    encodeBody .formData [("Content-Type", "multipart/form-data")]
      = (.formData, []) ∧
    encodeBody .formData [("X-Auth", "1")] = (.formData, [("X-Auth", "1")]) := by
  constructor
  · exact ((sfC10_amended [("Content-Type", "multipart/form-data")]).1
      "multipart/form-data" rfl (by decide)).1
  · exact (sfC10_amended [("X-Auth", "1")]).2 rfl

end SafeFetch
